import Mathlib

/-!
Verification development for the MoleculerJS turbo boilerplate.

This file shallowly embeds the transport-normalization and resilience layer
of the repository:

* `src/infrastructure/transports/serverless.ts` — event classification,
  API-Gateway / SQS / SNS parsing, payload-size guard and the error envelope
  built in the `handler` action's catch block;
* `src/infrastructure/transports/queue.ts` — publish (`lpush`) / consume
  (`rpop`) order and the consumer's polling loop;
* `src/molecular.config.ts` — the retry policy's `check` predicate and the
  circuit-breaker configuration;
* `src/types/index.ts` — the domain error classes;
* `src/infrastructure/repositories/index.ts` — `BaseRepository.delete`.

JavaScript values reaching these functions are duck-typed JSON-like values;
they are embedded as the inductive `JValue` below, with `undef` standing for
JavaScript's `undefined` (distinct from `null`).  `JSON.parse` and
`JSON.stringify` are runtime built-ins, not repository code, so they are
abstracted as parameters (`jp : String → Option JValue` for parsing and
`sz : JValue → Nat` for the serialized byte size).
-/

/-- A JavaScript/JSON-like value.  `undef` models `undefined`; numbers are
modelled as integers (the claims only exercise integral values). -/
inductive JValue where
  | undef : JValue
  | null : JValue
  | bool : Bool → JValue
  | num : Int → JValue
  | str : String → JValue
  | arr : List JValue → JValue
  | obj : List (String × JValue) → JValue
deriving Repr

namespace JValue

/-- Property lookup `v.k` on an object; `none` models `undefined` for a
missing key or a non-object receiver. -/
def lookup (v : JValue) (k : String) : Option JValue :=
  match v with
  | .obj fs => (fs.find? (fun p => p.1 == k)).map Prod.snd
  | _ => none

/-- JavaScript truthiness of a value. -/
def truthy (v : JValue) : Bool :=
  match v with
  | .undef => false
  | .null => false
  | .bool b => b
  | .num n => n != 0
  | .str s => s != ""
  | .arr _ => true
  | .obj _ => true

/-- Truthiness of a possibly-absent value (`undefined` is falsy). -/
def truthyOpt (v : Option JValue) : Bool :=
  match v with
  | none => false
  | some v => v.truthy

/-- The JavaScript `||` operator on a possibly-absent left operand:
`a || d` yields `a` when truthy and `d` otherwise. -/
def jsOr (v : Option JValue) (d : JValue) : JValue :=
  match v with
  | some x => if x.truthy then x else d
  | none => d

/-- Indexing `v[0]` as used on `event.Records`; only genuine arrays are
indexed by the claims' events. -/
def index0 (v : JValue) : Option JValue :=
  match v with
  | .arr xs => xs.head?
  | _ => none

/-- String coercion (JavaScript `String(v)` / template interpolation) for
the shapes the claims exercise; array/object coercion is approximated
(the claims never coerce those). -/
def jsStr (v : JValue) : String :=
  match v with
  | .undef => "undefined"
  | .null => "null"
  | .bool true => "true"
  | .bool false => "false"
  | .num n => toString n
  | .str s => s
  | .arr _ => ""
  | .obj _ => "[object Object]"

/-- The own-enumerable fields contributed by `{...v}`: objects contribute
their fields, arrays and strings contribute index-keyed entries, and other
primitives contribute none. -/
def spreadFields (v : JValue) : List (String × JValue) :=
  match v with
  | .obj fs => fs
  | .arr xs => xs.enum.map (fun p => (toString p.1, p.2))
  | .str s => s.toList.enum.map (fun p => (toString p.1, JValue.str (String.mk [p.2])))
  | _ => []

/-- Top-level values of an object (empty for non-objects). -/
def objValues (v : JValue) : List JValue :=
  match v with
  | .obj fs => fs.map Prod.snd
  | _ => []

end JValue

/-- Merge of two field lists with the semantics of `{...a, ...b}` for
lookups: a key found in `b` takes its `b` value, otherwise its `a` value.
(JavaScript additionally keeps `a`'s key order, which no lookup observes.) -/
def objSpread (a b : List (String × JValue)) : List (String × JValue) :=
  a.filter (fun p => (b.find? (fun q => q.1 == p.1)).isNone) ++ b

/-- Lookup in a field list (first match). -/
def fieldsLookup (fs : List (String × JValue)) (k : String) : Option JValue :=
  (fs.find? (fun p => p.1 == k)).map Prod.snd

/-!
## Serverless transport (`src/infrastructure/transports/serverless.ts`)
-/

/-- A canonical invocation as returned by `parseEvent` and its helpers:
`{ service, action, params, meta }`. -/
structure Invocation where
  service : String
  action : String
  params : JValue
  meta : JValue
deriving Repr

/-- Splitting `path.split('/')` on the character list: split at every `'/'`. -/
def splitSlash : List Char → List Char → List (List Char)
  | [], acc => [acc.reverse]
  | c :: rest, acc =>
      if c = '/' then acc.reverse :: splitSlash rest []
      else splitSlash rest (c :: acc)

/-- Path segmentation `event.path.split('/').filter(Boolean)` (serverless.ts line 149):
split on `'/'` and drop empty segments. -/
def pathSegs (p : String) : List String :=
  ((splitSlash p.toList []).map (fun cs => String.mk cs)).filter (fun s => s ≠ "")

/-- Models `!isNaN(seg)` (serverless.ts line 165) on the digit-string
identifiers the routes use.  (JavaScript's numeric coercion additionally
accepts signed/decimal/exponent forms, which no route in the claims
exercises.) -/
def isNumericId (s : String) : Bool :=
  s ≠ "" && s.toList.all Char.isDigit

/-- The REST-verb/path routing of `parseApiGatewayEvent` (serverless.ts
lines 149-172): one segment maps GET/POST to `list`/`create`, two segments
with a numeric second segment map GET/PUT/DELETE to `get`/`update`/`remove`,
anything else keeps `pathParts[1] || 'default'`. -/
def apiGwAction (method : String) (pathParts : List String) : String :=
  let action0 := match pathParts[1]? with
    | some s => s
    | none => "default"
  if pathParts.length = 1 then
    if method = "GET" then "list"
    else if method = "POST" then "create"
    else "default"
  else if pathParts.length = 2 ∧ isNumericId (pathParts.getD 1 "") then
    if method = "GET" then "get"
    else if method = "PUT" then "update"
    else if method = "DELETE" then "remove"
    else "default"
  else action0

/-- The body parsing of `parseApiGatewayEvent` (serverless.ts lines
175-183): a truthy body is parsed as JSON; if parsing fails the raw body is
kept under a `body` field; an absent body yields `{}`. -/
def apiGwBodyParams (jp : String → Option JValue) (event : JValue) : JValue :=
  let bodyV := (event.lookup "body").getD .undef
  if bodyV.truthy then
    match jp bodyV.jsStr with
    | some v => v
    | none => .obj [("body", bodyV)]
  else .obj []

/-- The parameter merge of `parseApiGatewayEvent` (serverless.ts lines
186-191): `{...params, ...event.pathParameters,
...event.queryStringParameters, headers: event.headers}`. -/
def apiGwMergedParams (jp : String → Option JValue) (event : JValue) :
    List (String × JValue) :=
  objSpread
    (objSpread
      (objSpread (apiGwBodyParams jp event).spreadFields
        (((event.lookup "pathParameters").getD .undef).spreadFields))
      (((event.lookup "queryStringParameters").getD .undef).spreadFields))
    [("headers", (event.lookup "headers").getD .undef)]

/-- Function `parseApiGatewayEvent` (serverless.ts lines 147-202): path-based
routing, REST-verb mapping, JSON body parsing with raw fallback, and the
spread-merge of path parameters, query parameters and headers.
`jp` abstracts `JSON.parse` (returning `none` when it would throw). -/
def parseApiGatewayEvent (jp : String → Option JValue) (event : JValue) : Invocation :=
  let pathV := (event.lookup "path").getD .undef
  let methodV := (event.lookup "httpMethod").getD .undef
  let pathParts := pathSegs pathV.jsStr
  let service := match pathParts.head? with
    | some s => s
    | none => "sample"
  { service := service
    action := apiGwAction methodV.jsStr pathParts
    params := .obj (apiGwMergedParams jp event)
    meta := .obj [("httpMethod", methodV), ("path", pathV)] }

/-- Function `parseSQSEvent` (serverless.ts lines 207-228): first record's body is
parsed as JSON (raw fallback under `body`) and routed to the fixed action
`processQueueMessage` of service `sample`. -/
def parseSQSEvent (jp : String → Option JValue) (event : JValue) : Invocation :=
  let record := (((event.lookup "Records").getD .undef).index0).getD .undef
  let bodyV := (record.lookup "body").getD .undef
  let params : JValue :=
    match jp bodyV.jsStr with
    | some v => v
    | none => .obj [("body", bodyV)]
  { service := "sample"
    action := "processQueueMessage"
    params := params
    meta := .obj [("source", .str "sqs"),
                  ("messageId", (record.lookup "messageId").getD .undef),
                  ("receiptHandle", (record.lookup "receiptHandle").getD .undef)] }

/-- Function `parseSNSEvent` (serverless.ts lines 233-253): the embedded
`Sns.Message` is parsed as JSON (raw fallback under `message`) and routed
to the fixed action `processNotification` of service `sample`. -/
def parseSNSEvent (jp : String → Option JValue) (event : JValue) : Invocation :=
  let record := (((event.lookup "Records").getD .undef).index0).getD .undef
  let sns := (record.lookup "Sns").getD .undef
  let msgV := (sns.lookup "Message").getD .undef
  let params : JValue :=
    match jp msgV.jsStr with
    | some v => v
    | none => .obj [("message", msgV)]
  { service := "sample"
    action := "processNotification"
    params := params
    meta := .obj [("source", .str "sns"),
                  ("topicArn", (sns.lookup "TopicArn").getD .undef),
                  ("messageId", (sns.lookup "MessageId").getD .undef)] }

/-- Detector for an API Gateway event: `event.httpMethod && event.path`
(serverless.ts line 111). -/
def isApiGatewayEvent (event : JValue) : Bool :=
  JValue.truthyOpt (event.lookup "httpMethod") && JValue.truthyOpt (event.lookup "path")

/-- Check `event.Records[0]?.eventSource === tag`: strict equality against a
string literal holds exactly when the field is that string. -/
def eventSourceIs (event : JValue) (tag : String) : Bool :=
  match (((event.lookup "Records").getD .undef).index0.getD .undef).lookup "eventSource" with
  | some (.str s) => s == tag
  | _ => false

/-- Detector for an SQS event:
`event.Records && event.Records[0]?.eventSource === 'aws:sqs'`
(serverless.ts line 116). -/
def isSQSEvent (event : JValue) : Bool :=
  JValue.truthyOpt (event.lookup "Records") && eventSourceIs event "aws:sqs"

/-- Detector for an SNS event (serverless.ts line 121). -/
def isSNSEvent (event : JValue) : Bool :=
  JValue.truthyOpt (event.lookup "Records") && eventSourceIs event "aws:sns"

/-- Detector for a direct invocation descriptor:
`event.service && event.action` (serverless.ts line 126). -/
def isDirectEvent (event : JValue) : Bool :=
  JValue.truthyOpt (event.lookup "service") && JValue.truthyOpt (event.lookup "action")

/-- The direct-invocation branch (serverless.ts lines 127-132): service and
action pass through, `params := event.params || {}`, `meta := event.meta`. -/
def parseDirectEvent (event : JValue) : Invocation :=
  { service := ((event.lookup "service").getD .undef).jsStr
    action := ((event.lookup "action").getD .undef).jsStr
    params := JValue.jsOr (event.lookup "params") (.obj [])
    meta := (event.lookup "meta").getD .undef }

/-- The default fallback (serverless.ts lines 136-141): the whole payload
becomes the parameters of `sample.processServerlessEvent`. -/
def parseFallbackEvent (event : JValue) : Invocation :=
  { service := "sample"
    action := "processServerlessEvent"
    params := event
    meta := .obj [] }

/-- Function `parseEvent` (serverless.ts lines 109-142): the ordered if-chain of
shape detectors, first match winning. -/
def parseEvent (jp : String → Option JValue) (event : JValue) : Invocation :=
  if isApiGatewayEvent event then parseApiGatewayEvent jp event
  else if isSQSEvent event then parseSQSEvent jp event
  else if isSNSEvent event then parseSNSEvent jp event
  else if isDirectEvent event then parseDirectEvent event
  else parseFallbackEvent event

/-- The spec's view of the classifier: an ordered list of
(predicate, parser) pairs evaluated in sequence, first match wins.  The
pairs are exactly the source's detectors in source order, with the
unconditional fallback last. -/
def detectors (jp : String → Option JValue) :
    List ((JValue → Bool) × (JValue → Invocation)) :=
  [(isApiGatewayEvent, parseApiGatewayEvent jp),
   (isSQSEvent, parseSQSEvent jp),
   (isSNSEvent, parseSNSEvent jp),
   (isDirectEvent, parseDirectEvent),
   (fun _ => true, parseFallbackEvent)]

/-- First-match dispatch over an ordered (predicate, parser) list. -/
def firstMatch (ds : List ((JValue → Bool) × (JValue → Invocation)))
    (event : JValue) : Option Invocation :=
  match ds with
  | [] => none
  | d :: rest => if d.1 event then some (d.2 event) else firstMatch rest event

/-!
## The serverless `handler` action (serverless.ts lines 39-102)
-/

/-- The wire-level error component `{code, message}` of an
`IServiceResponse` (`src/types/index.ts` lines 62-69).  Codes and messages
stay `JValue` because the catch block copies whatever `error.code` /
`error.message` hold. -/
structure ErrObj where
  code : JValue
  message : JValue
deriving Repr

/-- Envelope `IServiceResponse<T>`: `{success, data?, error?}`. -/
structure ServiceResponse where
  success : Bool
  data : Option JValue
  error : Option ErrObj
deriving Repr

/-- The catch block of the serverless `handler` (serverless.ts lines
93-99): `code: error.code || 'INTERNAL_ERROR'`,
`message: error.message || 'An unexpected error occurred'`.  Only the
`code` and `message` fields of the caught error reach the envelope. -/
def mkErrorEnvelope (err : JValue) : ServiceResponse :=
  { success := false
    data := none
    error := some
      { code := JValue.jsOr (err.lookup "code") (.str "INTERNAL_ERROR")
        message := JValue.jsOr (err.lookup "message") (.str "An unexpected error occurred") } }

/-- Setting `settings.maxPayloadSize` (serverless.ts line 19): 10 MB. -/
def maxPayloadSize : Nat := 10 * 1024 * 1024

/-- The message of the size-limit error thrown at serverless.ts line 51. -/
def sizeLimitMessage (n : Nat) : String :=
  "Payload size exceeds maximum allowed (" ++ toString n ++ " > " ++
    toString maxPayloadSize ++ ")"

/-- A plain `new Error(msg)`: it carries `message` (and a stack, which the
envelope never reads) but no `code` field. -/
def plainJsError (msg : String) : JValue :=
  .obj [("name", .str "Error"), ("message", .str msg)]

/-- The observable result of one `handler` run: the returned envelope and
the `broker.call` made (none when the broker was never invoked). -/
structure HandlerResult where
  response : ServiceResponse
  brokerCalled : Option (String × String × JValue)
deriving Repr

/-- The serverless `handler` action (serverless.ts lines 44-101): guard the
serialized payload size, classify the event, call
`broker.call(service.action, params)` and wrap the outcome; every raised
error is converted by the catch block's envelope.  `sz` abstracts
`getEventSize` (lines 258-264, `Buffer.byteLength(JSON.stringify(event))`)
and `broker` abstracts `this.broker.call` (`.error` models a rejected
call).  Logging and the request metadata passed alongside the call are
omitted: they never influence the envelope or the routing. -/
def serverlessHandler (jp : String → Option JValue) (sz : JValue → Nat)
    (broker : String → String → JValue → Except JValue JValue)
    (event : JValue) : HandlerResult :=
  let payloadSize := sz event
  if payloadSize > maxPayloadSize then
    { response := mkErrorEnvelope (plainJsError (sizeLimitMessage payloadSize))
      brokerCalled := none }
  else
    let inv := parseEvent jp event
    match broker inv.service inv.action inv.params with
    | .ok result =>
        { response := { success := true, data := some result, error := none }
          brokerCalled := some (inv.service, inv.action, inv.params) }
    | .error err =>
        { response := mkErrorEnvelope err
          brokerCalled := some (inv.service, inv.action, inv.params) }

/-!
## Queue transport (`src/infrastructure/transports/queue.ts`)
-/

/-- Redis `LPUSH`: `publish` (queue.ts line 80) pushes the serialized
message onto the left of the list. -/
def lpush (q : List String) (m : String) : List String := m :: q

/-- Redis `RPOP`: the consumer (queue.ts line 149) pops from the right of
the list, returning the popped message and the remaining queue. -/
def rpop (q : List String) : Option (String × List String) :=
  match q.getLast? with
  | none => none
  | some m => some (m, q.dropLast)

/-- An observable event of the consumer loop: a message is popped, or the
handler call for a popped message completes.  The loop's `await
handler(message)` (queue.ts line 153) finishes before `setImmediate`
schedules the next poll, so the loop emits `handled` before the next
`pop`. -/
inductive ConsEvent where
  | pop : String → ConsEvent
  | handled : String → ConsEvent
deriving Repr, DecidableEq

/-- The trace of one drain of the queue by the consumer loop of
`startConsumer` (queue.ts lines 146-166): pop a message with `rpop`, await
its handler, immediately poll again; stop (and wait) when the queue is
empty.  The sequential `await` is embedded as sequential recursion. -/
def consumerDrain (q : List String) : List ConsEvent :=
  match h : rpop q with
  | none => []
  | some (m, rest) => .pop m :: .handled m :: consumerDrain rest
termination_by q.length
decreasing_by
  unfold rpop at h
  cases hq : q.getLast? with
  | none => rw [hq] at h; exact absurd h (by simp)
  | some x =>
      rw [hq] at h
      cases q with
      | nil => simp at hq
      | cons a as =>
          simp only [Option.some.injEq, Prod.mk.injEq] at h
          simp [← h.2, List.length_dropLast]

/-- The messages handled along a trace, in order. -/
def handledOrder (t : List ConsEvent) : List String :=
  t.filterMap (fun ev => match ev with | .handled m => some m | _ => none)

/-- A trace is strictly sequential: it is a sequence of `pop m` each
immediately followed by `handled m` — the handler call for one message
completes before the next message is popped. -/
def alternates : List ConsEvent → Bool
  | [] => true
  | .pop m :: .handled m' :: rest => m == m' && alternates rest
  | _ => false

/-- One outcome of `redis.rpop(queueName)` as seen by the polling loop
(queue.ts lines 146-166): a raw message string, an empty-queue `null`, or a
transport-level read error (a rejected `rpop`). -/
inductive PollOutcome where
  | msg : String → PollOutcome
  | empty : PollOutcome
  | readError : PollOutcome
deriving Repr, DecidableEq

/-- The fixed wait before re-polling an empty queue:
`setTimeout(pollQueue, 1000)` (queue.ts line 159). -/
def pollInterval : Nat := 1000

/-- The backoff taken by the catch block of the polling loop:
`setTimeout(pollQueue, 5000)` (queue.ts line 164). -/
def errorBackoff : Nat := 5000

/-- The observable outcome of one iteration of `pollQueue`: the parsed
message passed to the queue handler (if any) and the delay before the next
poll is scheduled (0 models `setImmediate`). -/
structure PollStepResult where
  handledMsg : Option JValue
  delay : Nat
deriving Repr

/-- One iteration of `pollQueue` (queue.ts lines 146-166).  A popped
message is `JSON.parse`d (abstracted by `jp`); a parse failure throws into
the catch block, which waits `errorBackoff`.  A parsed message is handed to
the queue handler — `handleSampleQueue` (lines 175-191) catches its own
errors, so the handler call never throws back into the loop — and the next
poll is scheduled immediately.  An empty queue waits `pollInterval`; a
rejected `rpop` lands in the catch block and waits `errorBackoff`. -/
def pollIter (jp : String → Option JValue) : PollOutcome → PollStepResult
  | .msg raw =>
      match jp raw with
      | some v => { handledMsg := some v, delay := 0 }
      | none => { handledMsg := none, delay := errorBackoff }
  | .empty => { handledMsg := none, delay := pollInterval }
  | .readError => { handledMsg := none, delay := errorBackoff }

/-!
## Retry policy and domain errors
(`src/molecular.config.ts` lines 39-47, `src/types/index.ts` lines 36-55)
-/

/-- Check `Object.prototype.hasOwnProperty` on a duck-typed value: only objects
carry own properties here (the domain errors are modelled with their
enumerable fields). -/
def hasOwnField (v : JValue) (k : String) : Bool :=
  match v with
  | .obj fs => fs.any (fun p => p.1 == k)
  | _ => false

/-- The retry policy's `check` (molecular.config.ts line 45):
`err && err.hasOwnProperty('retryable') ? err.retryable : true`.
Moleculer consumes the returned value by truthiness, so the model returns
the truthiness of `err.retryable` in the then-branch. -/
def retryCheck (err : JValue) : Bool :=
  if err.truthy && hasOwnField err "retryable" then
    JValue.truthy ((err.lookup "retryable").getD .undef)
  else true

/-- A `NotFoundError` instance (`src/types/index.ts` lines 43-48): message
`` `${entity} not found${id ? ` with ID: ${id}` : ''}` `` and name
`NotFoundError`; the class sets no `retryable` field. -/
def notFoundErrorJs (entity : String) (id : Option String) : JValue :=
  .obj [("name", .str "NotFoundError"),
        ("message", .str (entity ++ " not found" ++
          (match id with
           | some i => if i = "" then "" else " with ID: " ++ i
           | none => "")))]

/-- A `ValidationError` instance (`src/types/index.ts` lines 50-55): it
carries its message and name `ValidationError` and sets no `retryable`
field. -/
def validationErrorJs (message : String) : JValue :=
  .obj [("name", .str "ValidationError"), ("message", .str message)]

/-!
## Circuit breaker

The breaker algorithm itself runs inside the moleculer framework; the
repository only configures it (`src/molecular.config.ts` lines 67-75).
The state machine below is therefore modelled from the spec (§4.1 steps 2
and 5, §4.2), instantiated with the repository's configured values.
-/

/-- Setting `circuitBreaker.threshold` (molecular.config.ts line 70): 0.5. -/
def cbThreshold : ℚ := 1 / 2

/-- Setting `circuitBreaker.minRequestCount` (molecular.config.ts line 71): 20. -/
def cbMinRequestCount : Nat := 20

/-- Setting `circuitBreaker.windowTime` (molecular.config.ts line 72): 60 s,
expressed in milliseconds on the model's clock. -/
def cbWindowTimeMs : Nat := 60 * 1000

/-- Setting `circuitBreaker.halfOpenTime` (molecular.config.ts line 73): 10 s in
milliseconds. -/
def cbHalfOpenTime : Nat := 10 * 1000

/-- One sliding-window entry `{timestamp, outcome}` (spec §3,
CircuitBreakerState). -/
structure WindowEntry where
  timestamp : Nat
  failed : Bool
deriving Repr, DecidableEq

/-- Breaker mode: CLOSED, OPEN (with `openedAt`), or HALF_OPEN. -/
inductive BreakerMode where
  | closed : BreakerMode
  | opened : Nat → BreakerMode
  | halfOpen : BreakerMode
deriving Repr, DecidableEq

/-- Modelled from the spec: the per-action CircuitBreakerState — mode plus
the trailing sliding window (spec §3). -/
structure Breaker where
  mode : BreakerMode
  window : List WindowEntry
deriving Repr, DecidableEq

/-- Modelled from the spec (§4.2): the sliding window prunes entries older
than `windowTime` before the failure ratio is computed. -/
def pruneWindow (now : Nat) (w : List WindowEntry) : List WindowEntry :=
  w.filter (fun e => now - e.timestamp < cbWindowTimeMs)

/-- Modelled from the spec: `failureRatio(window)` — failures over total
entries (0 on an empty window). -/
def failureRatio (w : List WindowEntry) : ℚ :=
  if w.length = 0 then 0
  else ((w.filter (fun e => e.failed)).length : ℚ) / (w.length : ℚ)

/-- Modelled from the spec (§4.1 step 5): outcome recording.  The pruned
window gains the new entry; a HALF_OPEN probe failure reopens immediately;
otherwise a failure opens the breaker (`openedAt = now`) when
`failureRatio(window) ≥ threshold` and `window.count ≥ minRequestCount`;
a success in HALF_OPEN closes the breaker. -/
def recordOutcome (b : Breaker) (now : Nat) (failed : Bool) : Breaker :=
  let w := pruneWindow now b.window ++ [⟨now, failed⟩]
  if failed then
    if b.mode = .halfOpen then { mode := .opened now, window := w }
    else if cbThreshold ≤ failureRatio w ∧ cbMinRequestCount ≤ w.length then
      { mode := .opened now, window := w }
    else { mode := b.mode, window := w }
  else
    { mode := if b.mode = .halfOpen then .closed else b.mode, window := w }

/-- Modelled from the spec (§4.1 step 2): circuit-breaker admission.  An
OPEN breaker within `halfOpenTime` of `openedAt` rejects with
`CIRCUIT_OPEN`; after `halfOpenTime` it transitions to HALF_OPEN and admits
one probe; concurrent calls during HALF_OPEN are rejected. -/
def breakerAdmit (b : Breaker) (now : Nat) : Bool × Breaker :=
  match b.mode with
  | .closed => (true, b)
  | .halfOpen => (false, b)
  | .opened t =>
      if now - t < cbHalfOpenTime then (false, b)
      else (true, { b with mode := .halfOpen })

/-- The observable outcome of one routed invocation: the short-circuit
error code (if any), whether the underlying handler ran, and the resulting
breaker state. -/
structure InvokeResult where
  errorCode : Option String
  handlerInvoked : Bool
  breaker : Breaker
deriving Repr, DecidableEq

/-- Modelled from the spec (§4.1): one invocation through the
circuit-breaker admission — a rejected admission returns `CIRCUIT_OPEN`
without invoking the handler; an admitted call runs the handler and records
its outcome. -/
def routerInvoke (b : Breaker) (now : Nat) (handlerFails : Bool) : InvokeResult :=
  match breakerAdmit b now with
  | (false, b') => { errorCode := some "CIRCUIT_OPEN", handlerInvoked := false, breaker := b' }
  | (true, b') =>
      { errorCode := if handlerFails then some "HANDLER_ERROR" else none
        handlerInvoked := true
        breaker := recordOutcome b' now handlerFails }

/-!
## BaseRepository.delete (`src/infrastructure/repositories/index.ts` lines 216-224)
-/

/-- Method `BaseRepository.delete`: the collection is replaced by
`collection.filter(entity => entity.id !== id)` and the returned success
flag is `initialLength > collection.length`. -/
def repoDelete {α : Type} (idOf : α → String) (coll : List α) (id : String) :
    List α × Bool :=
  let remaining := coll.filter (fun e => idOf e ≠ id)
  (remaining, decide (remaining.length < coll.length))

/-!
## Concrete inputs used by counterexamples and witnesses
-/

/-- The first `some` of two options (used to state lookup precedence). -/
def firstSome (a b : Option JValue) : Option JValue :=
  match a with
  | some v => some v
  | none => b

/-- A `JSON.parse` environment in which every string fails to parse (the
events below carry no JSON body, so any parse environment agrees with it
on them). -/
def jpNoParse : String → Option JValue := fun _ => none

/-- The spec's example event `{httpMethod:"GET", path:"/sample/42"}`,
carrying no `pathParameters`, `queryStringParameters`, `body` or
`headers`. -/
def evGet42 : JValue :=
  .obj [("httpMethod", .str "GET"), ("path", .str "/sample/42")]

/-- A direct-invocation event `{service:"sample", action:"get", params:{id:"1"}}`. -/
def evDirect : JValue :=
  .obj [("service", .str "sample"), ("action", .str "get"),
        ("params", .obj [("id", .str "1")])]

/-- An unexpected infrastructure error: it has a message and a stack but no
`code` field — the kind of error the spec calls unknown. -/
def errNoCode : JValue :=
  .obj [("name", .str "Error"),
        ("message", .str "connect ECONNREFUSED 127.0.0.1:5432"),
        ("stack", .str "Error: connect ECONNREFUSED 127.0.0.1:5432 at Socket")]

/-- A broker whose call rejects with `errNoCode`. -/
def brokerConnRefused : String → String → JValue → Except JValue JValue :=
  fun _ _ _ => .error errNoCode

/-- A broker whose call always succeeds with `null`. -/
def brokerOk : String → String → JValue → Except JValue JValue :=
  fun _ _ _ => .ok .null

/-- A size function reporting zero bytes for every event. -/
def szZero : JValue → Nat := fun _ => 0

/-- A size function reporting one byte over the configured maximum. -/
def szOver : JValue → Nat := fun _ => maxPayloadSize + 1

/-- The JSON body text `{"a":1}`. -/
def bodyA1 : String := "\x7b\"a\":1\x7d"

/-- A `JSON.parse` environment parsing exactly `bodyA1` to `{a: 1}`. -/
def jpA1 : String → Option JValue :=
  fun s => if s = bodyA1 then some (.obj [("a", .num 1)]) else none

/-- An API-Gateway event whose body field `a` clashes with a query-string
parameter `a`: `{httpMethod:"POST", path:"/sample", body:'{"a":1}',
queryStringParameters:{a:2}}`. -/
def evBodyClash : JValue :=
  .obj [("httpMethod", .str "POST"), ("path", .str "/sample"),
        ("body", .str bodyA1),
        ("queryStringParameters", .obj [("a", .num 2)])]

/-- A breaker whose trailing window already holds 19 failures at time 0. -/
def breakerNearOpen : Breaker :=
  { mode := .closed, window := List.replicate 19 ⟨0, true⟩ }


/-!
# Helper lemmas
-/

/-- Applying `jsOr` to a falsy (or absent) value yields the default. -/
theorem jsOr_of_falsy {v : Option JValue} {d : JValue}
    (h : JValue.truthyOpt v = false) : JValue.jsOr v d = d := by
  cases v with
  | none => rfl
  | some x =>
      simp only [JValue.truthyOpt] at h
      simp [JValue.jsOr, h]

/-- Every field of a spread-merge comes from one of the two sides. -/
theorem mem_objSpread {p : String × JValue} {a b : List (String × JValue)}
    (h : p ∈ objSpread a b) : p ∈ a ∨ p ∈ b := by
  unfold objSpread at h
  rcases List.mem_append.mp h with h1 | h2
  · exact Or.inl (List.mem_filter.mp h1).1
  · exact Or.inr h2

/-- Lookup in a spread-merge: a key present on the right side takes the
right side's value, otherwise the left side's. -/
theorem fieldsLookup_objSpread (a b : List (String × JValue)) (k : String) :
    fieldsLookup (objSpread a b) k = firstSome (fieldsLookup b k) (fieldsLookup a k) := by
  induction a with
  | nil =>
      have hb : objSpread [] b = b := by simp [objSpread]
      rw [hb]
      cases h : fieldsLookup b k <;> rfl
  | cons p as ih =>
      unfold objSpread at ih ⊢
      rw [List.filter_cons]
      by_cases hP : (b.find? (fun q => q.1 == p.1)).isNone = true
      · rw [if_pos hP]
        by_cases hpk : p.1 = k
        · have hb : (p.1 == k) = true := by simp [hpk]
          have hbk : List.find? (fun q => q.1 == k) b = none := by
            rw [← hpk]
            exact Option.isNone_iff_eq_none.mp hP
          simp [fieldsLookup, List.find?, hb, hbk, firstSome]
        · have hb : (p.1 == k) = false := by simp [hpk]
          simpa [fieldsLookup, List.find?, hb] using ih
      · rw [if_neg hP]
        by_cases hpk : p.1 = k
        · have hsome : ∃ x, b.find? (fun q => q.1 == p.1) = some x := by
            cases hx : b.find? (fun q => q.1 == p.1) with
            | none => rw [hx] at hP; simp at hP
            | some x => exact ⟨x, rfl⟩
          rcases hsome with ⟨x, hx⟩
          have hbk : List.find? (fun q => q.1 == k) b = some x := by
            rw [← hpk]; exact hx
          rw [ih]
          simp [firstSome, fieldsLookup, hbk]
        · have hb : (p.1 == k) = false := by simp [hpk]
          rw [ih]
          simp [fieldsLookup, List.find?, hb]

/-- The if-chain of `parseEvent` on an API-Gateway-shaped event. -/
theorem parseEvent_apiGw {jp : String → Option JValue} {e : JValue}
    (h : isApiGatewayEvent e = true) :
    parseEvent jp e = parseApiGatewayEvent jp e := by
  simp [parseEvent, h]

/-!
# Claim theorems
-/

/-- C4: event classification evaluates the shape detectors in the fixed
order API-Gateway, SQS batch, SNS notification, explicit descriptor,
fallback, first match winning: the source's if-chain `parseEvent` equals
first-match dispatch over exactly that ordered detector list, which is
total (the fallback always matches), and the batch/notification/fallback
parsers target the fixed actions `processQueueMessage`,
`processNotification` and `processServerlessEvent` (the fallback routing
the entire payload as parameters). -/
theorem claim_C4_thm (jp : String → Option JValue) (e : JValue) :
    firstMatch (detectors jp) e = some (parseEvent jp e)
    ∧ (parseSQSEvent jp e).service = "sample"
    ∧ (parseSQSEvent jp e).action = "processQueueMessage"
    ∧ (parseSNSEvent jp e).service = "sample"
    ∧ (parseSNSEvent jp e).action = "processNotification"
    ∧ (parseFallbackEvent e).service = "sample"
    ∧ (parseFallbackEvent e).action = "processServerlessEvent"
    ∧ (parseFallbackEvent e).params = e := by
  refine ⟨?_, rfl, rfl, rfl, rfl, rfl, rfl, rfl⟩
  by_cases h1 : isApiGatewayEvent e = true
  · simp [firstMatch, detectors, parseEvent, h1]
  · by_cases h2 : isSQSEvent e = true
    · simp [firstMatch, detectors, parseEvent, h1, h2]
    · by_cases h3 : isSNSEvent e = true
      · simp [firstMatch, detectors, parseEvent, h1, h2, h3]
      · by_cases h4 : isDirectEvent e = true
        · simp [firstMatch, detectors, parseEvent, h1, h2, h3, h4]
        · simp [firstMatch, detectors, parseEvent, h1, h2, h3, h4]

/-- C10: `BaseRepository.delete` returns `true` iff an entity with the
given id was present, and the remaining collection is exactly the prior
collection with every entity bearing that id removed and all other
entities kept (in order). -/
theorem claim_C10_thm {α : Type} (idOf : α → String) (coll : List α) (id : String) :
    ((repoDelete idOf coll id).2 = true ↔ ∃ e ∈ coll, idOf e = id)
    ∧ (∀ e, e ∈ (repoDelete idOf coll id).1 ↔ e ∈ coll ∧ idOf e ≠ id)
    ∧ (repoDelete idOf coll id).1.Sublist coll := by
  refine ⟨?_, ?_, ?_⟩
  · simp only [repoDelete, decide_eq_true_eq]
    rw [List.length_filter_lt_length_iff_exists]
    simp
  · intro e
    simp [repoDelete, List.mem_filter]
  · exact List.filter_sublist coll

/-- The size-limit message is never the empty string. -/
theorem sizeLimitMessage_ne (n : Nat) : sizeLimitMessage n ≠ "" := by
  unfold sizeLimitMessage
  intro h
  have h2 := congrArg String.length h
  simp only [String.length_append] at h2
  have h0 : String.length "" = 0 := rfl
  have h1 : 0 < String.length "Payload size exceeds maximum allowed (" := by decide
  omega

/-- C1 (amended): an error carrying no truthy `code` maps to code exactly
`INTERNAL_ERROR`; the envelope message is the original error's `message`
whenever that is truthy (so the original message IS exposed), falling back
to the generic `An unexpected error occurred` only when the error carries
no truthy message; and the envelope depends only on the error's `code` and
`message` fields — the stack trace (and every other field) never reaches
the envelope. -/
theorem claim_C1_thm (err : JValue)
    (hc : JValue.truthyOpt (err.lookup "code") = false) :
    (mkErrorEnvelope err).error =
      some { code := .str "INTERNAL_ERROR"
             message := JValue.jsOr (err.lookup "message") (.str "An unexpected error occurred") }
    ∧ (JValue.truthyOpt (err.lookup "message") = false →
        (mkErrorEnvelope err).error =
          some { code := .str "INTERNAL_ERROR"
                 message := .str "An unexpected error occurred" })
    ∧ (∀ err' : JValue, err'.lookup "code" = err.lookup "code" →
        err'.lookup "message" = err.lookup "message" →
        mkErrorEnvelope err' = mkErrorEnvelope err) := by
  refine ⟨?_, ?_, ?_⟩
  · simp [mkErrorEnvelope, jsOr_of_falsy hc]
  · intro hm
    simp [mkErrorEnvelope, jsOr_of_falsy hc, jsOr_of_falsy hm]
  · intro err' h1 h2
    simp [mkErrorEnvelope, h1, h2]

/-- C1 witness: `claim_C1_thm` at the concrete code-less error. -/
theorem claim_C1_wit :
    JValue.truthyOpt (errNoCode.lookup "code") = false
    ∧ (mkErrorEnvelope errNoCode).error =
        some { code := .str "INTERNAL_ERROR"
               message := JValue.jsOr (errNoCode.lookup "message")
                 (.str "An unexpected error occurred") } :=
  ⟨rfl, (claim_C1_thm errNoCode rfl).1⟩

/-- C1 counterexample: a broker failure without a `code` field yields code
`INTERNAL_ERROR`, but the envelope message is the original error's message
— not a generic one — so the original error detail is placed into the
client-facing envelope. -/
theorem claim_C1_cex :
    (serverlessHandler jpNoParse szZero brokerConnRefused evDirect).response =
      { success := false, data := none,
        error := some { code := .str "INTERNAL_ERROR",
                        message := .str "connect ECONNREFUSED 127.0.0.1:5432" } }
    ∧ errNoCode.lookup "code" = none
    ∧ errNoCode.lookup "message" = some (.str "connect ECONNREFUSED 127.0.0.1:5432")
    ∧ ¬ (JValue.str "connect ECONNREFUSED 127.0.0.1:5432"
          = JValue.str "An unexpected error occurred") := by
  refine ⟨rfl, rfl, rfl, ?_⟩
  intro hEq
  injection hEq with hs
  exact absurd hs (by decide)

/-- C3: an event whose serialized size exceeds `maxPayloadSize` never
reaches the broker, and the handler returns an error envelope whose message
is the dedicated size-limit message (the thrown `Error` carries no code, so
the envelope code is the catch-all `INTERNAL_ERROR`). -/
theorem claim_C3_thm (jp : String → Option JValue) (sz : JValue → Nat)
    (broker : String → String → JValue → Except JValue JValue) (e : JValue)
    (h : maxPayloadSize < sz e) :
    (serverlessHandler jp sz broker e).brokerCalled = none
    ∧ (serverlessHandler jp sz broker e).response.success = false
    ∧ (serverlessHandler jp sz broker e).response.error =
        some { code := .str "INTERNAL_ERROR",
               message := .str (sizeLimitMessage (sz e)) } := by
  have hcond : (sz e > maxPayloadSize) = True := eq_true h
  have hmsg : (sizeLimitMessage (sz e) != "") = true :=
    bne_iff_ne.mpr (sizeLimitMessage_ne (sz e))
  refine ⟨?_, ?_, ?_⟩ <;>
    simp [serverlessHandler, hcond, mkErrorEnvelope, plainJsError,
      JValue.lookup, List.find?, JValue.jsOr, JValue.truthy, hmsg]

/-- C3 witness: `claim_C3_thm` at a one-byte-over-limit size function. -/
theorem claim_C3_wit :
    maxPayloadSize < szOver (JValue.obj [])
    ∧ (serverlessHandler jpNoParse szOver brokerOk (JValue.obj [])).brokerCalled = none :=
  ⟨by decide, (claim_C3_thm jpNoParse szOver brokerOk (JValue.obj []) (by decide)).1⟩

/-- C2 (amended): with method GET, a one-segment path routes to action
`list` on the service named by the segment, and a two-segment path with a
numeric second segment routes to action `get`; the identifier is recorded
only inside the invocation metadata's `path` — the adapter does not inject
the path identifier into the parameters: every parameter field comes from
the parsed body, the event's own `pathParameters` or
`queryStringParameters`, or is the `headers` field. -/
theorem claim_C2_thm (jp : String → Option JValue) (e : JValue) (p : String)
    (hm : e.lookup "httpMethod" = some (.str "GET"))
    (hp : e.lookup "path" = some (.str p)) :
    (∀ s : String, pathSegs p = [s] →
        (parseEvent jp e).action = "list" ∧ (parseEvent jp e).service = s)
    ∧ (∀ s ident : String, pathSegs p = [s, ident] → isNumericId ident = true →
        (parseEvent jp e).action = "get"
        ∧ (parseEvent jp e).service = s
        ∧ (parseEvent jp e).meta.lookup "path" = some (.str p)
        ∧ (parseEvent jp e).params = .obj (apiGwMergedParams jp e)
        ∧ (∀ kv ∈ apiGwMergedParams jp e,
            kv ∈ (apiGwBodyParams jp e).spreadFields
            ∨ kv ∈ ((e.lookup "pathParameters").getD .undef).spreadFields
            ∨ kv ∈ ((e.lookup "queryStringParameters").getD .undef).spreadFields
            ∨ kv.1 = "headers")) := by
  constructor
  · intro s hsegs
    have hpne : p ≠ "" := by
      intro h0
      subst h0
      have h1 : pathSegs "" = [] := rfl
      rw [h1] at hsegs
      cases hsegs
    have h2 : (p != "") = true := bne_iff_ne.mpr hpne
    have hpe : isApiGatewayEvent e = true := by
      unfold isApiGatewayEvent
      rw [hm, hp]
      simp [JValue.truthyOpt, JValue.truthy, h2]
    rw [parseEvent_apiGw hpe]
    unfold parseApiGatewayEvent
    rw [hm, hp]
    constructor <;>
      simp [hsegs, apiGwAction, JValue.jsStr]
  · intro s ident hsegs hnum
    have hpne : p ≠ "" := by
      intro h0
      subst h0
      have h1 : pathSegs "" = [] := rfl
      rw [h1] at hsegs
      cases hsegs
    have h2 : (p != "") = true := bne_iff_ne.mpr hpne
    have hpe : isApiGatewayEvent e = true := by
      unfold isApiGatewayEvent
      rw [hm, hp]
      simp [JValue.truthyOpt, JValue.truthy, h2]
    refine ⟨?_, ?_, ?_, ?_, ?_⟩
    · rw [parseEvent_apiGw hpe]
      unfold parseApiGatewayEvent
      rw [hm, hp]
      simp [hsegs, apiGwAction, JValue.jsStr, hnum]
    · rw [parseEvent_apiGw hpe]
      unfold parseApiGatewayEvent
      rw [hm, hp]
      simp [hsegs, JValue.jsStr]
    · rw [parseEvent_apiGw hpe]
      unfold parseApiGatewayEvent
      rw [hm, hp]
      have e1 : ("httpMethod" == "path") = false := by decide
      have e2 : ("path" == "path") = true := by decide
      simp [JValue.lookup, List.find?, e1, e2]
    · rw [parseEvent_apiGw hpe]
      unfold parseApiGatewayEvent
      rfl
    · intro kv hkv
      unfold apiGwMergedParams at hkv
      rcases mem_objSpread hkv with h1 | h1
      · rcases mem_objSpread h1 with h2 | h2
        · rcases mem_objSpread h2 with h3 | h3
          · exact Or.inl h3
          · exact Or.inr (Or.inl h3)
        · exact Or.inr (Or.inr (Or.inl h2))
      · have h3 := List.mem_singleton.mp h1
        exact Or.inr (Or.inr (Or.inr (by rw [h3])))

/-- C2 witness: `claim_C2_thm` at the spec's own example event
`{httpMethod:"GET", path:"/sample/42"}`. -/
theorem claim_C2_wit :
    evGet42.lookup "httpMethod" = some (.str "GET")
    ∧ evGet42.lookup "path" = some (.str "/sample/42")
    ∧ pathSegs "/sample/42" = ["sample", "42"]
    ∧ isNumericId "42" = true
    ∧ (parseEvent jpNoParse evGet42).action = "get" :=
  ⟨rfl, rfl, by decide, by decide,
    ((claim_C2_thm jpNoParse evGet42 "/sample/42" rfl rfl).2 "sample" "42"
      (by decide) (by decide)).1⟩

/-- C2 counterexample: for the spec's example event `{httpMethod:"GET",
path:"/sample/42"}` the adapter routes to action `get`, but the resulting
parameters are exactly `{headers: undefined}` — the identifier `42` is not
injected into the invocation parameters (the claim asserts it is). -/
theorem claim_C2_cex :
    (parseEvent jpNoParse evGet42).action = "get"
    ∧ (parseEvent jpNoParse evGet42).params = JValue.obj [("headers", JValue.undef)]
    ∧ JValue.str "42" ∉ (JValue.obj [("headers", JValue.undef)]).objValues := by
  refine ⟨rfl, rfl, ?_⟩
  intro hmem
  simp [JValue.objValues] at hmem

/-- C6 (amended): the retry policy's `check` consults only an own
`retryable` field — an error is classified non-retryable exactly when it is
truthy and carries a `retryable` field whose value is falsy; errors without
the field default to retryable, and in particular the repository's
`NotFoundError` and `ValidationError` instances (which set no such field)
are classified retryable, so such failures are retried rather than
short-circuited. -/
theorem claim_C6_thm (err : JValue) :
    (retryCheck err = false ↔
      err.truthy = true
      ∧ hasOwnField err "retryable" = true
      ∧ JValue.truthy ((err.lookup "retryable").getD .undef) = false)
    ∧ (∀ entity id, retryCheck (notFoundErrorJs entity id) = true)
    ∧ (∀ m, retryCheck (validationErrorJs m) = true) := by
  refine ⟨?_, fun entity id => rfl, fun m => rfl⟩
  unfold retryCheck
  by_cases h1 : err.truthy = true
  · by_cases h2 : hasOwnField err "retryable" = true
    · simp [h1, h2]
    · simp [h1, h2]
  · simp [h1]

/-- C6 counterexample: the repository's own `NotFoundError` and
`ValidationError` instances are classified retryable (`check` returns
`true`), contradicting the claim that the retryable predicate classifies
validation and not-found errors as non-retryable. -/
theorem claim_C6_cex :
    retryCheck (notFoundErrorJs "Sample" (some "123")) = true
    ∧ retryCheck (validationErrorJs "Name is required") = true :=
  ⟨rfl, rfl⟩

/-- C8 (amended): the consumer never busy-waits on an empty queue — an
empty poll schedules the next poll after the fixed positive `pollInterval`
(1000 ms), which is distinct from the 5000 ms error backoff — and the
error backoff is applied on any error raised inside the poll iteration:
transport-level read errors and message-parse failures alike (never on a
normal empty-queue result); a successfully parsed message is handed to the
handler and the next poll is scheduled immediately. -/
theorem claim_C8_thm (jp : String → Option JValue) :
    (pollIter jp .empty).delay = pollInterval
    ∧ 0 < pollInterval
    ∧ pollInterval ≠ errorBackoff
    ∧ (pollIter jp .empty).delay ≠ errorBackoff
    ∧ (pollIter jp .readError).delay = errorBackoff
    ∧ (∀ raw, (pollIter jp (.msg raw)).delay = errorBackoff ↔ jp raw = none)
    ∧ (∀ raw v, jp raw = some v →
        (pollIter jp (.msg raw)).handledMsg = some v ∧ (pollIter jp (.msg raw)).delay = 0) := by
  refine ⟨rfl, by decide, by decide,
    fun h => (by decide : pollInterval ≠ errorBackoff) h, rfl, ?_, ?_⟩
  · intro raw
    cases h : jp raw with
    | none => simp [pollIter, h, errorBackoff]
    | some v => simp [pollIter, h, errorBackoff]
  · intro raw v h
    simp [pollIter, h]

/-- C8 counterexample: a popped message whose body fails to parse as JSON
lands in the catch block and the consumer applies the 5000 ms error
backoff, although the outcome is not a transport-level read error — so
backoff is not applied only on transport-level read errors. -/
theorem claim_C8_cex :
    pollIter jpNoParse (.msg "not-json") = { handledMsg := none, delay := errorBackoff }
    ∧ PollOutcome.msg "not-json" ≠ PollOutcome.readError
    ∧ (pollIter jpNoParse .empty).delay ≠ errorBackoff := by
  refine ⟨rfl, ?_, by decide⟩
  intro h
  cases h

/-- C9 (amended): the body is parsed as JSON with the raw body kept under a
`body` field on parse failure, but the precedence is the reverse of the
claim: the merged sources override the body — for any key other than
`headers`, the merged parameter value is the query-string value if present,
else the path-parameter value, else the body value; and the `headers` key
always holds the event's headers. -/
theorem claim_C9_thm (jp : String → Option JValue) (e : JValue) (k : String)
    (hk : (k == "headers") = false) :
    fieldsLookup (apiGwMergedParams jp e) k =
      firstSome (fieldsLookup (((e.lookup "queryStringParameters").getD .undef).spreadFields) k)
        (firstSome (fieldsLookup (((e.lookup "pathParameters").getD .undef).spreadFields) k)
          (fieldsLookup (apiGwBodyParams jp e).spreadFields k))
    ∧ fieldsLookup (apiGwMergedParams jp e) "headers" =
        some ((e.lookup "headers").getD .undef)
    ∧ (((e.lookup "body").getD .undef).truthy = true →
        jp ((e.lookup "body").getD .undef).jsStr = none →
        apiGwBodyParams jp e = .obj [("body", (e.lookup "body").getD .undef)])
    ∧ (∀ v, ((e.lookup "body").getD .undef).truthy = true →
        jp ((e.lookup "body").getD .undef).jsStr = some v →
        apiGwBodyParams jp e = v) := by
  refine ⟨?_, ?_, ?_, ?_⟩
  · unfold apiGwMergedParams
    rw [fieldsLookup_objSpread, fieldsLookup_objSpread, fieldsLookup_objSpread]
    have hk2 : ("headers" == k) = false := by
      rw [beq_eq_false_iff_ne] at hk ⊢
      exact fun h => hk h.symm
    have hhead : fieldsLookup [("headers", (e.lookup "headers").getD .undef)] k = none := by
      simp [fieldsLookup, List.find?, hk2]
    rw [hhead]
    rfl
  · unfold apiGwMergedParams
    rw [fieldsLookup_objSpread]
    have hhead : fieldsLookup [("headers", (e.lookup "headers").getD .undef)] "headers" =
        some ((e.lookup "headers").getD .undef) := by
      simp [fieldsLookup, List.find?]
    rw [hhead]
    rfl
  · intro hb hjp
    unfold apiGwBodyParams
    rw [if_pos hb, hjp]
  · intro v hb hjp
    unfold apiGwBodyParams
    rw [if_pos hb, hjp]

/-- C9 witness: `claim_C9_thm` at the clash event and key `a`. -/
theorem claim_C9_wit :
    ("a" == "headers") = false
    ∧ fieldsLookup (apiGwMergedParams jpA1 evBodyClash) "a" =
        firstSome
          (fieldsLookup (((evBodyClash.lookup "queryStringParameters").getD .undef).spreadFields) "a")
          (firstSome
            (fieldsLookup (((evBodyClash.lookup "pathParameters").getD .undef).spreadFields) "a")
            (fieldsLookup (apiGwBodyParams jpA1 evBodyClash).spreadFields "a")) :=
  ⟨by decide, (claim_C9_thm jpA1 evBodyClash "a" (by decide)).1⟩

/-- C9 counterexample: for an event whose JSON body sets `a` to 1 while the
query string sets `a` to 2, the merged invocation parameters hold `a = 2`
— the merged query-string value overrides the explicit body field, the
reverse of the claimed precedence. -/
theorem claim_C9_cex :
    apiGwBodyParams jpA1 evBodyClash = JValue.obj [("a", JValue.num 1)]
    ∧ (parseEvent jpA1 evBodyClash).params.lookup "a" = some (JValue.num 2)
    ∧ ¬ (JValue.num 2 = JValue.num 1) := by
  refine ⟨rfl, rfl, ?_⟩
  intro h
  injection h with h2
  exact absurd h2 (by decide)

/-- Publishing messages in order onto a queue left-pushes them:
`foldl lpush` prepends the reversed batch. -/
theorem foldl_lpush (ms q : List String) :
    List.foldl lpush q ms = ms.reverse ++ q := by
  induction ms generalizing q with
  | nil => simp
  | cons m tl ih =>
      simp [List.foldl, lpush, ih, List.append_assoc]

/-- Draining the reversal of `l` pops and handles `l` in order. -/
theorem consumerDrain_reverse (l : List String) :
    consumerDrain l.reverse =
      l.flatMap (fun m => [ConsEvent.pop m, ConsEvent.handled m]) := by
  induction l with
  | nil =>
      rw [List.reverse_nil]
      rw [consumerDrain]
      rfl
  | cons m tl ih =>
      rw [List.reverse_cons]
      rw [consumerDrain]
      have h1 : rpop (tl.reverse ++ [m]) = some (m, tl.reverse) := by
        simp [rpop, List.getLast?_concat, List.dropLast_concat]
      split
      · next heq =>
          rw [h1] at heq
          exact absurd heq (by simp)
      · next m2 rest heq =>
          rw [h1] at heq
          simp only [Option.some.injEq, Prod.mk.injEq] at heq
          obtain ⟨rfl, rfl⟩ := heq
          rw [ih]
          rfl

/-- The handled messages of a pop/handled pair trace are the source list. -/
theorem handledOrder_pairs (l : List String) :
    handledOrder (l.flatMap (fun m => [ConsEvent.pop m, ConsEvent.handled m])) = l := by
  induction l with
  | nil => rfl
  | cons m tl ih =>
      simp only [List.flatMap_cons]
      show handledOrder (.pop m :: .handled m ::
        tl.flatMap (fun m => [ConsEvent.pop m, ConsEvent.handled m])) = m :: tl
      simp only [handledOrder, List.filterMap_cons]
      simp only [handledOrder] at ih
      rw [ih]

/-- A pop/handled pair trace is strictly sequential. -/
theorem alternates_pairs (l : List String) :
    alternates (l.flatMap (fun m => [ConsEvent.pop m, ConsEvent.handled m])) = true := by
  induction l with
  | nil => rfl
  | cons m tl ih =>
      simp only [List.flatMap_cons]
      show alternates (.pop m :: .handled m ::
        tl.flatMap (fun m => [ConsEvent.pop m, ConsEvent.handled m])) = true
      simp [alternates, ih]

/-- C7: messages published to a queue in order A, B, C (left-pushes) are
popped (right-pops) and handled by the consumer loop strictly in that
order, and the trace is strictly sequential: each pop is immediately
followed by the completion of that message's handler before the next pop
occurs. -/
theorem claim_C7_thm (ms : List String) :
    handledOrder (consumerDrain (List.foldl lpush [] ms)) = ms
    ∧ alternates (consumerDrain (List.foldl lpush [] ms)) = true := by
  have h0 : List.foldl lpush [] ms = ms.reverse := by
    rw [foldl_lpush]; simp
  rw [h0, consumerDrain_reverse]
  exact ⟨handledOrder_pairs ms, alternates_pairs ms⟩

/-- C5 (spec-modelled): once an action's trailing window reaches the
configured failure-ratio threshold with at least the configured minimum
request count, the failure recording opens the breaker at `now`, and any
invocation arriving before `halfOpenTime` has elapsed is short-circuited
with `CIRCUIT_OPEN` without invoking the underlying handler. -/
theorem claim_C5_thm (b : Breaker) (now t : Nat)
    (hmode : b.mode = .closed)
    (hratio : cbThreshold ≤ failureRatio (pruneWindow now b.window ++ [WindowEntry.mk now true]))
    (hcount : cbMinRequestCount ≤ (pruneWindow now b.window ++ [WindowEntry.mk now true]).length)
    (ht : t - now < cbHalfOpenTime) :
    (recordOutcome b now true).mode = .opened now
    ∧ (∀ hf : Bool,
        (routerInvoke (recordOutcome b now true) t hf).errorCode = some "CIRCUIT_OPEN"
        ∧ (routerInvoke (recordOutcome b now true) t hf).handlerInvoked = false) := by
  have hopen : recordOutcome b now true =
      { mode := .opened now, window := pruneWindow now b.window ++ [WindowEntry.mk now true] } := by
    unfold recordOutcome
    rw [hmode]
    have hcount2 : cbMinRequestCount ≤ (pruneWindow now b.window).length + 1 := by
      simpa using hcount
    simp [hratio, hcount2]
  refine ⟨by rw [hopen], ?_⟩
  intro hf
  rw [hopen]
  constructor <;> simp [routerInvoke, breakerAdmit, ht]

/-- C5 witness: `claim_C5_thm` on a breaker whose window holds 19 failures
at time 0, recording a 20th failure at time 0 and invoking at time 1. -/
theorem claim_C5_wit :
    breakerNearOpen.mode = .closed
    ∧ cbThreshold ≤ failureRatio (pruneWindow 0 breakerNearOpen.window ++ [WindowEntry.mk 0 true])
    ∧ cbMinRequestCount ≤ (pruneWindow 0 breakerNearOpen.window ++ [WindowEntry.mk 0 true]).length
    ∧ 1 - 0 < cbHalfOpenTime
    ∧ (recordOutcome breakerNearOpen 0 true).mode = .opened 0 := by
  have hwin : pruneWindow 0 breakerNearOpen.window ++ [WindowEntry.mk 0 true] =
      List.replicate 20 (WindowEntry.mk 0 true) := by decide
  have hfr : failureRatio (List.replicate 20 (WindowEntry.mk 0 true)) = 1 := by
    unfold failureRatio
    rw [if_neg (by decide)]
    have h1 : ((List.replicate 20 (WindowEntry.mk 0 true)).filter
        (fun e => e.failed)).length = 20 := by decide
    have h2 : (List.replicate 20 (WindowEntry.mk 0 true)).length = 20 := by decide
    rw [h1, h2]
    norm_num
  have hR : cbThreshold ≤ failureRatio (pruneWindow 0 breakerNearOpen.window ++ [WindowEntry.mk 0 true]) := by
    rw [hwin, hfr]
    unfold cbThreshold
    norm_num
  have hC : cbMinRequestCount ≤ (pruneWindow 0 breakerNearOpen.window ++ [WindowEntry.mk 0 true]).length := by
    rw [hwin]
    decide
  exact ⟨rfl, hR, hC, by decide,
    (claim_C5_thm breakerNearOpen 0 1 rfl hR hC (by decide)).1⟩
